import Mathlib

/-!
Verification of the VC4C synchronization instruction nodes
(SemaphoreAdjustment, MemoryBarrier, LifetimeBoundary) against their
natural-language specification.

The definitions below are a shallow embedding of the C++ source
(IntermediateInstruction nodes for synchronization).  Exceptions are
modelled with `Except CompilationError`; the enumerations and small
helpers declared in headers absent from the sampled sources are
modelled from the spec, each marked in its doc comment.
-/

set_option linter.unusedVariables false

namespace VC4C

/-- Compilation steps appearing in the sampled source's error sites. -/
inductive CompilationStep
  | GENERAL
  | LLVM_2_IR
  | CODE_GENERATION
deriving DecidableEq, Repr

/-- CompilationError: the exception thrown throughout the source, carrying
a step, a message and a detail string (usually a rendered node). -/
structure CompilationError where
  step : CompilationStep
  message : String
  detail : String
deriving DecidableEq, Repr

/-- Modelled from the spec: the kinds of locals the operand model can
reference; only `stackAllocation` satisfies the lifetime invariant. -/
inductive LocalKind
  | parameter
  | stackAllocation
  | plainLocal
  | globalData
deriving DecidableEq, Repr

/-- Modelled from the spec: a symbolic program location with a name. -/
structure Local where
  name : String
  kind : LocalKind
deriving DecidableEq, Repr

/-- Modelled from the spec: typed references to registers, immediates, or
symbolic program locations (the operand/value model). -/
inductive Value
  | localValue (l : Local)
  | register (num : Nat)
  | literal (i : Int)
  | undef
deriving DecidableEq, Repr

/-- Modelled from the spec: the textual rendering of an operand, used in
diagnostics and error details. -/
def Value.to_string : Value → String
  | .localValue l => l.name
  | .register num => "register " ++ toString num
  | .literal i => toString i
  | .undef => "undefined"

/-- Mirrors `allocation.hasType(ValueType::LOCAL) &&
allocation.local->is<StackAllocation>()` from the LifetimeBoundary
constructor. -/
def Value.isStackAllocationLocal : Value → Bool
  | .localValue l => l.kind == LocalKind.stackAllocation
  | _ => false

/-- Modelled from the spec: the fixed enumeration of execution conditions
(predicate model); carried through unchanged by the nodes here. -/
structure ConditionCode where
  code : Nat
deriving DecidableEq, Repr

/-- Modelled from the spec: the always-execute condition, the default
predicate of a newly built instruction. -/
def COND_ALWAYS : ConditionCode := ⟨1⟩

/-- Modelled from the spec: the flag-write mode of an instruction. -/
inductive SetFlag
  | DONT_SET
  | SET_FLAGS
deriving DecidableEq, Repr

/-- Modelled from the spec: the data-pack transform of a machine
instruction; the semaphore encoding carries none. -/
inductive Pack
  | NOP
deriving DecidableEq, Repr

/-- The no-data-pack constant `PACK_NOP` used at the semaphore lowering
call site. -/
def PACK_NOP : Pack := Pack.NOP

/-- Modelled from the spec: the register-swap mode of a machine
instruction. -/
inductive WriteSwap
  | DONT_SWAP
  | SWAP
deriving DecidableEq, Repr

/-- Modelled from the spec: the no-data register placeholder number
(`REG_NOP.num`), a fixed hardware register address. -/
def REG_NOP_num : Nat := 39

/-- Modelled from the spec: the bounded hardware semaphore identifier
(a small fixed set of 16 hardware semaphores). -/
abbrev Semaphore := Fin 16

/-- The machine instruction produced by lowering a semaphore adjustment
(`qpu_asm::SemaphoreInstruction`), with the fields in the order of the
constructor call at the lowering site. -/
structure SemaphoreInstruction where
  pack : Pack
  addCondition : ConditionCode
  mulCondition : ConditionCode
  setFlag : SetFlag
  writeSwap : WriteSwap
  waddrAdd : Nat
  waddrMul : Nat
  increment : Bool
  semaphore : Semaphore
deriving DecidableEq, Repr

/-- The machine instructions this layer can produce. -/
inductive Instruction
  | semaphore (si : SemaphoreInstruction)
deriving DecidableEq, Repr

/-- The value-to-register mapping handed to lowering (keys are local
names, values register numbers). -/
abbrev RegisterMapping := List (String × Nat)

/-- The label-to-offset mapping handed to lowering. -/
abbrev LabelMapping := List (String × Nat)

/-- Modelled from the spec: `createAdditionalInfoString` of the
instruction base class renders the node's diagnostic annotation tags as
a suffix appended to the base rendering. -/
def createAdditionalInfoString (decorations : List String) : String :=
  String.join (decorations.map (fun d => " " ++ d))

/-- Modelled from the spec: a destination method for structural copies;
the renaming rule re-resolves locals against it by name prefixing. -/
structure Method where
  name : String
deriving DecidableEq, Repr

/-- Modelled from the spec: `renameValue` of the instruction base class,
the deterministic name-prefixing renaming rule applied to referenced
locals when copying a node into a destination method. -/
def renameValue (method : Method) (v : Value) (pfx : String) : Value :=
  match v with
  | .localValue l => .localValue ⟨pfx ++ l.name, l.kind⟩
  | v => v

/-- SemaphoreAdjustment: semaphore identifier, direction flag, plus the
base-class predicate, flag-write mode and diagnostic decorations. -/
structure SemaphoreAdjustment where
  semaphore : Semaphore
  increase : Bool
  conditional : ConditionCode
  setFlags : SetFlag
  decorations : List String
deriving DecidableEq, Repr

/-- The SemaphoreAdjustment constructor: stores the fields, no result
value, fresh (empty) decorations. -/
def mkSemaphoreAdjustment (semaphore : Semaphore) (increase : Bool)
    (cond : ConditionCode) (setFlags : SetFlag) : SemaphoreAdjustment :=
  { semaphore := semaphore, increase := increase, conditional := cond,
    setFlags := setFlags, decorations := [] }

/-- `SemaphoreAdjustment::to_string`. -/
def SemaphoreAdjustment.to_string (i : SemaphoreAdjustment) : String :=
  "semaphore " ++ (toString i.semaphore.val ++ " ")
    ++ (if i.increase then "increase" else "decrease")
    ++ createAdditionalInfoString i.decorations

/-- `SemaphoreAdjustment::convertToAsm`: builds the fixed semaphore
encoding; ignores both mappings and the instruction index and never
throws. -/
def SemaphoreAdjustment.convertToAsm (i : SemaphoreAdjustment)
    (registerMapping : RegisterMapping) (labelMapping : LabelMapping)
    (instructionIndex : Nat) : Except CompilationError Instruction :=
  .ok (.semaphore
    { pack := PACK_NOP, addCondition := i.conditional,
      mulCondition := i.conditional, setFlag := i.setFlags,
      writeSwap := WriteSwap.DONT_SWAP, waddrAdd := REG_NOP_num,
      waddrMul := REG_NOP_num, increment := i.increase,
      semaphore := i.semaphore })

/-- Modelled from the spec: `copyExtrasFrom` propagates the diagnostic
decorations of the source node verbatim onto the fresh copy. -/
def SemaphoreAdjustment.copyExtrasFrom (dst src : SemaphoreAdjustment) :
    SemaphoreAdjustment :=
  { dst with decorations := src.decorations }

/-- `SemaphoreAdjustment::copyFor`: a fresh node with the same scalar
fields, extras copied from the source. -/
def SemaphoreAdjustment.copyFor (i : SemaphoreAdjustment) (method : Method)
    (pfx : String) : SemaphoreAdjustment :=
  (mkSemaphoreAdjustment i.semaphore i.increase i.conditional
    i.setFlags).copyExtrasFrom i

/-- The fixed memory-scope enumeration. -/
inductive MemoryScope
  | CROSS_DEVICE
  | DEVICE
  | SUB_GROUP
  | WORK_GROUP
  | INVOCATION
deriving DecidableEq, Repr, Fintype

/-- Modelled from the spec: the numeric encoding of the scope enumeration
(mirroring the SPIR-V scope values the fixed enumeration is drawn from). -/
def MemoryScope.toRaw : MemoryScope → Nat
  | .CROSS_DEVICE => 0
  | .DEVICE => 1
  | .WORK_GROUP => 2
  | .SUB_GROUP => 3
  | .INVOCATION => 4

/-- The static `toString(MemoryScope)` switch, on the raw underlying
value: each enumerator maps to its scope word and any value outside the
enumeration falls through to the throw. -/
def memoryScopeToStringRaw (scope : Nat) : Except CompilationError String :=
  if scope = MemoryScope.CROSS_DEVICE.toRaw then .ok "global"
  else if scope = MemoryScope.DEVICE.toRaw then .ok "device"
  else if scope = MemoryScope.SUB_GROUP.toRaw then .ok "sub-group"
  else if scope = MemoryScope.WORK_GROUP.toRaw then .ok "work-group"
  else if scope = MemoryScope.INVOCATION.toRaw then .ok "invocation"
  else .error { step := CompilationStep.GENERAL,
                message := "Unsupported memory scope value",
                detail := toString scope }

/-- The static `toString(MemoryScope)` switch restricted to the five
enumerators, where it is total. -/
def memoryScopeToString : MemoryScope → String
  | .CROSS_DEVICE => "global"
  | .DEVICE => "device"
  | .SUB_GROUP => "sub-group"
  | .WORK_GROUP => "work-group"
  | .INVOCATION => "invocation"

/-- Modelled from the spec: the memory-semantics bitset, one flag per bit
tested by `has_flag` in the rendering code. -/
structure MemorySemantics where
  acquire : Bool
  release : Bool
  acquireRelease : Bool
  sequentiallyConsistent : Bool
  subgroupMemory : Bool
  workGroupMemory : Bool
  crossWorkGroupMemory : Bool
  atomicCounterMemory : Bool
  imageMemory : Bool
deriving DecidableEq, Repr

/-- The empty semantics bitset. -/
def MemorySemantics.NONE : MemorySemantics :=
  ⟨false, false, false, false, false, false, false, false, false⟩

/-- The static `toString(MemorySemantics)` word list, in the source's
fixed emission order. -/
def memorySemanticsWords (s : MemorySemantics) : List String :=
  (if s.acquire || s.acquireRelease then ["acquire"] else [])
  ++ (if s.release || s.acquireRelease then ["release"] else [])
  ++ (if s.sequentiallyConsistent then ["sequentially consistent"] else [])
  ++ (if s.subgroupMemory then ["sub-group"] else [])
  ++ (if s.workGroupMemory then ["work-group"] else [])
  ++ (if s.crossWorkGroupMemory then ["global"] else [])
  ++ (if s.atomicCounterMemory then ["atomic counter"] else [])
  ++ (if s.imageMemory then ["image"] else [])

/-- The static `toString(MemorySemantics)`: the words joined with the
separator. -/
def memorySemanticsToString (s : MemorySemantics) : String :=
  String.intercalate "|" (memorySemanticsWords s)

/-- MemoryBarrier: scope, semantics bitset, plus base-class diagnostic
decorations. -/
structure MemoryBarrier where
  scope : MemoryScope
  semantics : MemorySemantics
  decorations : List String
deriving DecidableEq, Repr

/-- The MemoryBarrier constructor: no result value, fresh decorations. -/
def mkMemoryBarrier (scope : MemoryScope) (semantics : MemorySemantics) :
    MemoryBarrier :=
  { scope := scope, semantics := semantics, decorations := [] }

/-- `MemoryBarrier::to_string`. -/
def MemoryBarrier.to_string (mb : MemoryBarrier) : String :=
  "mem-fence " ++ (memoryScopeToString mb.scope ++ ", ")
    ++ memorySemanticsToString mb.semantics
    ++ createAdditionalInfoString mb.decorations

/-- `MemoryBarrier::to_string` on a raw (possibly out-of-enumeration)
scope value: the scope word is computed first and its failure
propagates. -/
def memoryBarrierRenderRaw (scopeRaw : Nat) (semantics : MemorySemantics)
    (decorations : List String) : Except CompilationError String := do
  let scopeWord ← memoryScopeToStringRaw scopeRaw
  return "mem-fence " ++ (scopeWord ++ ", ")
    ++ memorySemanticsToString semantics
    ++ createAdditionalInfoString decorations

/-- `MemoryBarrier::convertToAsm`: always throws, with the rendered node
as detail. -/
def MemoryBarrier.convertToAsm (mb : MemoryBarrier)
    (registerMapping : RegisterMapping) (labelMapping : LabelMapping)
    (instructionIndex : Nat) : Except CompilationError Instruction :=
  .error { step := CompilationStep.CODE_GENERATION,
           message := "There should be no more memory barriers at this point",
           detail := mb.to_string }

/-- Modelled from the spec: `copyExtrasFrom` propagates the diagnostic
decorations verbatim (MemoryBarrier copy). -/
def MemoryBarrier.copyExtrasFrom (dst src : MemoryBarrier) : MemoryBarrier :=
  { dst with decorations := src.decorations }

/-- `MemoryBarrier::copyFor`. -/
def MemoryBarrier.copyFor (mb : MemoryBarrier) (method : Method)
    (pfx : String) : MemoryBarrier :=
  (mkMemoryBarrier mb.scope mb.semantics).copyExtrasFrom mb

/-- `MemoryBarrier::mapsToASMInstruction`. -/
def MemoryBarrier.mapsToASMInstruction (mb : MemoryBarrier) : Bool :=
  false

/-- LifetimeBoundary: the argument list (arity 1, holding the stack
object), the start/end flag, and diagnostic decorations. -/
structure LifetimeBoundary where
  args : List Value
  isLifetimeEnd : Bool
  decorations : List String
deriving DecidableEq, Repr

/-- The LifetimeBoundary constructor: validates the operand resolves to a
stack allocation before storing it; otherwise throws and stores
nothing. -/
def mkLifetimeBoundary (allocation : Value) (lifetimeEnd : Bool) :
    Except CompilationError LifetimeBoundary :=
  if !allocation.isStackAllocationLocal then
    .error { step := CompilationStep.LLVM_2_IR,
             message := "Cannot control life-time of object not located on stack",
             detail := allocation.to_string }
  else
    .ok { args := [allocation], isLifetimeEnd := lifetimeEnd,
          decorations := [] }

/-- `LifetimeBoundary::getStackAllocation`: returns argument 0. -/
def LifetimeBoundary.getStackAllocation (lb : LifetimeBoundary) : Value :=
  lb.args.headD Value.undef

/-- `LifetimeBoundary::to_string`. -/
def LifetimeBoundary.to_string (lb : LifetimeBoundary) : String :=
  "life-time for " ++ lb.getStackAllocation.to_string
    ++ (if lb.isLifetimeEnd then " ends" else " starts")

/-- `LifetimeBoundary::convertToAsm`: always throws, with the rendered
node as detail. -/
def LifetimeBoundary.convertToAsm (lb : LifetimeBoundary)
    (registerMapping : RegisterMapping) (labelMapping : LabelMapping)
    (instructionIndex : Nat) : Except CompilationError Instruction :=
  .error { step := CompilationStep.CODE_GENERATION,
           message := "There should be no more lifetime instructions at this point",
           detail := lb.to_string }

/-- Modelled from the spec: `copyExtrasFrom` propagates the diagnostic
decorations verbatim (LifetimeBoundary copy). -/
def LifetimeBoundary.copyExtrasFrom (dst src : LifetimeBoundary) :
    LifetimeBoundary :=
  { dst with decorations := src.decorations }

/-- `LifetimeBoundary::copyFor`: re-resolves the stack object through the
renaming rule and rebuilds the node through the validating
constructor. -/
def LifetimeBoundary.copyFor (lb : LifetimeBoundary) (method : Method)
    (pfx : String) : Except CompilationError LifetimeBoundary :=
  (mkLifetimeBoundary (renameValue method lb.getStackAllocation pfx)
    lb.isLifetimeEnd).map (fun fresh => fresh.copyExtrasFrom lb)

/-- `LifetimeBoundary::mapsToASMInstruction`. -/
def LifetimeBoundary.mapsToASMInstruction (lb : LifetimeBoundary) : Bool :=
  false

/-! Spec-side definitions, written from the specification's words, for
comparison with the source-side render functions. -/

/-- The spec's scope word table: `global|device|sub-group|work-group|
invocation`. -/
def specScopeWord : MemoryScope → String
  | .CROSS_DEVICE => "global"
  | .DEVICE => "device"
  | .SUB_GROUP => "sub-group"
  | .WORK_GROUP => "work-group"
  | .INVOCATION => "invocation"

/-- The claim's fixed ordered semantics word list, spelled exactly as the
claim spells it (hyphenated "sequentially-consistent" and
"atomic-counter"), each word paired with the condition under which it is
present; acquire-release contributes both "acquire" and "release". -/
def claimedOrderedSemanticsWords : List (String × (MemorySemantics → Bool)) :=
  [("acquire", fun s => s.acquire || s.acquireRelease),
   ("release", fun s => s.release || s.acquireRelease),
   ("sequentially-consistent", fun s => s.sequentiallyConsistent),
   ("sub-group", fun s => s.subgroupMemory),
   ("work-group", fun s => s.workGroupMemory),
   ("global", fun s => s.crossWorkGroupMemory),
   ("atomic-counter", fun s => s.atomicCounterMemory),
   ("image", fun s => s.imageMemory)]

/-- The MemoryBarrier rendering exactly as the claim states it: the scope
word, then the claimed semantics words present in the bitset in the fixed
order, joined with the separator. -/
def claimedRenderMemoryBarrier (mb : MemoryBarrier) : String :=
  "mem-fence " ++ specScopeWord mb.scope ++ ", "
    ++ String.intercalate "|"
        ((claimedOrderedSemanticsWords.filter
          (fun p => p.snd mb.semantics)).map Prod.fst)
    ++ createAdditionalInfoString mb.decorations

/-- The amended ordered semantics word list: identical to the claimed one
except that the rendered words are "sequentially consistent" and
"atomic counter" (a space, not a hyphen), as the source emits them. -/
def amendedOrderedSemanticsWords : List (String × (MemorySemantics → Bool)) :=
  [("acquire", fun s => s.acquire || s.acquireRelease),
   ("release", fun s => s.release || s.acquireRelease),
   ("sequentially consistent", fun s => s.sequentiallyConsistent),
   ("sub-group", fun s => s.subgroupMemory),
   ("work-group", fun s => s.workGroupMemory),
   ("global", fun s => s.crossWorkGroupMemory),
   ("atomic counter", fun s => s.atomicCounterMemory),
   ("image", fun s => s.imageMemory)]

/-- The MemoryBarrier rendering per the amended claim. -/
def amendedRenderMemoryBarrier (mb : MemoryBarrier) : String :=
  "mem-fence " ++ specScopeWord mb.scope ++ ", "
    ++ String.intercalate "|"
        ((amendedOrderedSemanticsWords.filter
          (fun p => p.snd mb.semantics)).map Prod.fst)
    ++ createAdditionalInfoString mb.decorations

/-- The semantics bitset of the worked example:
ACQUIRE_RELEASE plus WORK_GROUP_MEMORY. -/
def exampleSemantics : MemorySemantics :=
  { MemorySemantics.NONE with acquireRelease := true, workGroupMemory := true }

/-- The semantics bitset containing only SEQUENTIALLY_CONSISTENT. -/
def seqCstSemantics : MemorySemantics :=
  { MemorySemantics.NONE with sequentiallyConsistent := true }

/-- A concrete SemaphoreAdjustment used as a structural-copy input. -/
def c8sa : SemaphoreAdjustment :=
  { semaphore := 2, increase := false, conditional := COND_ALWAYS,
    setFlags := SetFlag.SET_FLAGS, decorations := ["(volatile)"] }

/-- A concrete MemoryBarrier used as a structural-copy input. -/
def c8mb : MemoryBarrier :=
  { scope := MemoryScope.DEVICE, semantics := exampleSemantics,
    decorations := ["(barrier)"] }

/-- A concrete, invariant-satisfying LifetimeBoundary used as a
structural-copy input. -/
def c8lb : LifetimeBoundary :=
  { args := [Value.localValue { name := "%buf", kind := LocalKind.stackAllocation }],
    isLifetimeEnd := false, decorations := ["(lifetime)"] }

/-! Helper lemmas shared by the claim theorems. -/

/-- Appending a common suffix to two strings is injective. -/
theorem string_append_right_cancel (p1 p2 n : String) (h : p1 ++ n = p2 ++ n) :
    p1 = p2 := by
  have hd : (p1 ++ n).data = (p2 ++ n).data := by rw [h]
  simp [String.data_append] at hd
  exact String.ext hd

/-- The source's scope-word switch agrees with the spec's scope-word
table on every enumerator. -/
theorem memoryScopeToString_eq_spec (s : MemoryScope) :
    memoryScopeToString s = specScopeWord s := by
  cases s <;> rfl

/-- The source's semantics word list equals the filter of the amended
ordered word table, for every bitset. -/
theorem memorySemanticsWords_eq_filter (s : MemorySemantics) :
    memorySemanticsWords s =
      (amendedOrderedSemanticsWords.filter (fun p => p.snd s)).map Prod.fst := by
  obtain ⟨a, r, ar, sc, sg, wg, gl, ac, im⟩ := s
  cases a <;> cases r <;> cases ar <;> cases sc <;> cases sg <;>
    cases wg <;> cases gl <;> cases ac <;> cases im <;> rfl

/-! Claim theorems. -/

/-- C1: for every MemoryBarrier node, over all scope and semantics values
of the fixed enumerations and all lowering inputs, convertToAsm never
returns a machine instruction: it always fails with the fixed fatal
code-generation error whose message names memory barriers having reached
code generation (distinguishing it from ordinary lowering failures) and
whose detail is the node's rendered text. -/
theorem memoryBarrier_convertToAsm_always_fatal (mb : MemoryBarrier)
    (rm : RegisterMapping) (lm : LabelMapping) (idx : Nat) :
    mb.convertToAsm rm lm idx =
      .error { step := CompilationStep.CODE_GENERATION,
               message := "There should be no more memory barriers at this point",
               detail := mb.to_string } ∧
    (∀ instr : Instruction, mb.convertToAsm rm lm idx ≠ .ok instr) :=
  ⟨rfl, fun _ h => nomatch h⟩

/-- C2: constructing a LifetimeBoundary over an operand that does not
resolve to a stack allocation always fails with the construction error
(carrying the operand's rendered text), and no node is ever produced, so
the invalid operand is never stored and render/lower are unreachable. -/
theorem lifetimeBoundary_construction_rejects_nonstack (v : Value) (e : Bool)
    (h : v.isStackAllocationLocal = false) :
    mkLifetimeBoundary v e =
      .error { step := CompilationStep.LLVM_2_IR,
               message := "Cannot control life-time of object not located on stack",
               detail := v.to_string } ∧
    (∀ lb : LifetimeBoundary, mkLifetimeBoundary v e ≠ .ok lb) := by
  refine ⟨by simp [mkLifetimeBoundary, h], ?_⟩
  intro lb hlb
  simp [mkLifetimeBoundary, h] at hlb

/-- C2 witness: the construction error at the concrete non-stack operand
`register 5`. -/
theorem lifetimeBoundary_construction_rejects_nonstack_witness :
    (Value.register 5).isStackAllocationLocal = false ∧
    ((mkLifetimeBoundary (Value.register 5) false =
      .error { step := CompilationStep.LLVM_2_IR,
               message := "Cannot control life-time of object not located on stack",
               detail := (Value.register 5).to_string }) ∧
     (∀ lb : LifetimeBoundary,
        mkLifetimeBoundary (Value.register 5) false ≠ .ok lb)) :=
  ⟨by decide,
   lifetimeBoundary_construction_rejects_nonstack (Value.register 5) false
     (by decide)⟩

/-- C3: constructing a SemaphoreAdjustment over any semaphore identifier
and direction and lowering it under any mappings succeeds, producing the
machine instruction with no data-pack transform, the node's predicate as
both conditions, the node's flag-write mode, no register swap, two
no-data register placeholders, the direction flag and the semaphore
identifier unchanged. -/
theorem semaphoreAdjustment_lowering_fields (s : Semaphore) (d : Bool)
    (cond : ConditionCode) (sf : SetFlag)
    (rm : RegisterMapping) (lm : LabelMapping) (idx : Nat) :
    (mkSemaphoreAdjustment s d cond sf).convertToAsm rm lm idx =
      .ok (.semaphore
        { pack := PACK_NOP, addCondition := cond, mulCondition := cond,
          setFlag := sf, writeSwap := WriteSwap.DONT_SWAP,
          waddrAdd := REG_NOP_num, waddrMul := REG_NOP_num,
          increment := d, semaphore := s }) := rfl

/-- C4 counterexample: on the bitset holding only
SEQUENTIALLY_CONSISTENT, the source renders the word with a space
("sequentially consistent"), not the hyphenated
"sequentially-consistent" the claim's fixed word list states. -/
theorem memoryBarrier_render_claimed_words_counterexample :
    (mkMemoryBarrier MemoryScope.WORK_GROUP seqCstSemantics).to_string ≠
      claimedRenderMemoryBarrier
        (mkMemoryBarrier MemoryScope.WORK_GROUP seqCstSemantics) ∧
    (mkMemoryBarrier MemoryScope.WORK_GROUP seqCstSemantics).to_string =
      "mem-fence work-group, sequentially consistent" ∧
    claimedRenderMemoryBarrier
        (mkMemoryBarrier MemoryScope.WORK_GROUP seqCstSemantics) =
      "mem-fence work-group, sequentially-consistent" := by
  refine ⟨by decide, by decide, by decide⟩

/-- C4 (amended): for every MemoryBarrier, render is the scope word
followed by the semantics words present in the bitset in the fixed order
acquire, release, sequentially consistent, sub-group, work-group,
global, atomic counter, image (acquire-release contributing both
"acquire" and "release"), joined with the separator; and the worked
example renders "mem-fence work-group, acquire|release|work-group". -/
theorem memoryBarrier_render_fixed_order (mb : MemoryBarrier) :
    mb.to_string = amendedRenderMemoryBarrier mb ∧
    (mkMemoryBarrier MemoryScope.WORK_GROUP exampleSemantics).to_string =
      "mem-fence work-group, acquire|release|work-group" := by
  constructor
  · rw [MemoryBarrier.to_string, amendedRenderMemoryBarrier,
      memorySemanticsToString, memorySemanticsWords_eq_filter,
      memoryScopeToString_eq_spec]
    simp [String.append_assoc]
  · rfl

/-- C5: rendering a scope value outside the fixed enumeration fails with
the unsupported-value error carrying the raw value, and a barrier
rendering over such a scope propagates that error rather than defaulting
to any scope word. -/
theorem memoryScope_out_of_range_render_fails (n : Nat)
    (h : ∀ s : MemoryScope, s.toRaw ≠ n) :
    memoryScopeToStringRaw n =
      .error { step := CompilationStep.GENERAL,
               message := "Unsupported memory scope value",
               detail := toString n } ∧
    (∀ (sem : MemorySemantics) (decs : List String),
      memoryBarrierRenderRaw n sem decs =
        .error { step := CompilationStep.GENERAL,
                 message := "Unsupported memory scope value",
                 detail := toString n }) := by
  have h0 : ¬ (n = MemoryScope.CROSS_DEVICE.toRaw) := fun hh => h _ hh.symm
  have h1 : ¬ (n = MemoryScope.DEVICE.toRaw) := fun hh => h _ hh.symm
  have h2 : ¬ (n = MemoryScope.SUB_GROUP.toRaw) := fun hh => h _ hh.symm
  have h3 : ¬ (n = MemoryScope.WORK_GROUP.toRaw) := fun hh => h _ hh.symm
  have h4 : ¬ (n = MemoryScope.INVOCATION.toRaw) := fun hh => h _ hh.symm
  have hscope : memoryScopeToStringRaw n =
      .error { step := CompilationStep.GENERAL,
               message := "Unsupported memory scope value",
               detail := toString n } := by
    rw [memoryScopeToStringRaw, if_neg h0, if_neg h1, if_neg h2, if_neg h3,
      if_neg h4]
  refine ⟨hscope, fun sem decs => ?_⟩
  rw [memoryBarrierRenderRaw, hscope]
  rfl

/-- C5 witness: the raw scope value 7 is outside the enumeration and
both renderings fail on it with the unsupported-value error. -/
theorem memoryScope_out_of_range_render_fails_witness :
    (∀ s : MemoryScope, s.toRaw ≠ 7) ∧
    ((memoryScopeToStringRaw 7 =
      .error { step := CompilationStep.GENERAL,
               message := "Unsupported memory scope value",
               detail := toString 7 }) ∧
     (∀ (sem : MemorySemantics) (decs : List String),
        memoryBarrierRenderRaw 7 sem decs =
          .error { step := CompilationStep.GENERAL,
                   message := "Unsupported memory scope value",
                   detail := toString 7 })) :=
  ⟨by decide, memoryScope_out_of_range_render_fails 7 (by decide)⟩

/-- C6: the encodability query returns false for every MemoryBarrier and
every LifetimeBoundary node. -/
theorem sync_meta_nodes_never_encodable (mb : MemoryBarrier)
    (lb : LifetimeBoundary) :
    mb.mapsToASMInstruction = false ∧ lb.mapsToASMInstruction = false :=
  ⟨rfl, rfl⟩

/-- C7: for every LifetimeBoundary node and all lowering inputs,
convertToAsm never returns a machine instruction: it always fails with
the fixed fatal code-generation error whose detail is the node's
rendered text. -/
theorem lifetimeBoundary_convertToAsm_always_fatal (lb : LifetimeBoundary)
    (rm : RegisterMapping) (lm : LabelMapping) (idx : Nat) :
    lb.convertToAsm rm lm idx =
      .error { step := CompilationStep.CODE_GENERATION,
               message := "There should be no more lifetime instructions at this point",
               detail := lb.to_string } ∧
    (∀ instr : Instruction, lb.convertToAsm rm lm idx ≠ .ok instr) :=
  ⟨rfl, fun _ h => nomatch h⟩

/-- C8: structural copy yields, for each of the three synchronization
kinds, a node whose scalar fields equal the source's with the diagnostic
decorations propagated verbatim; for LifetimeBoundary the operand is
re-resolved through the name-prefixing renaming rule, and two copies
made with distinct renaming rules carry non-aliased, distinctly renamed
operands, each still satisfying the stack-allocation invariant. -/
theorem structuralCopy_preserves_and_renames
    (sa : SemaphoreAdjustment) (mb : MemoryBarrier) (lb : LifetimeBoundary)
    (m1 m2 : Method) (p1 p2 n : String)
    (hp : p1 ≠ p2)
    (hstack : lb.getStackAllocation =
      Value.localValue { name := n, kind := LocalKind.stackAllocation }) :
    ((sa.copyFor m1 p1).semaphore = sa.semaphore ∧
     (sa.copyFor m1 p1).increase = sa.increase ∧
     (sa.copyFor m1 p1).conditional = sa.conditional ∧
     (sa.copyFor m1 p1).setFlags = sa.setFlags ∧
     (sa.copyFor m1 p1).decorations = sa.decorations) ∧
    ((mb.copyFor m1 p1).scope = mb.scope ∧
     (mb.copyFor m1 p1).semantics = mb.semantics ∧
     (mb.copyFor m1 p1).decorations = mb.decorations) ∧
    (∃ lb1 lb2 : LifetimeBoundary,
      lb.copyFor m1 p1 = .ok lb1 ∧ lb.copyFor m2 p2 = .ok lb2 ∧
      lb1.isLifetimeEnd = lb.isLifetimeEnd ∧
      lb2.isLifetimeEnd = lb.isLifetimeEnd ∧
      lb1.decorations = lb.decorations ∧
      lb2.decorations = lb.decorations ∧
      lb1.getStackAllocation =
        Value.localValue { name := p1 ++ n, kind := LocalKind.stackAllocation } ∧
      lb2.getStackAllocation =
        Value.localValue { name := p2 ++ n, kind := LocalKind.stackAllocation } ∧
      lb1.getStackAllocation.isStackAllocationLocal = true ∧
      lb2.getStackAllocation.isStackAllocationLocal = true ∧
      lb1.getStackAllocation ≠ lb2.getStackAllocation) := by
  refine ⟨⟨rfl, rfl, rfl, rfl, rfl⟩, ⟨rfl, rfl, rfl⟩, ?_⟩
  have hcopy1 : lb.copyFor m1 p1 = .ok
      { args := [Value.localValue
          { name := p1 ++ n, kind := LocalKind.stackAllocation }],
        isLifetimeEnd := lb.isLifetimeEnd, decorations := lb.decorations } := by
    rw [LifetimeBoundary.copyFor, hstack]
    rfl
  have hcopy2 : lb.copyFor m2 p2 = .ok
      { args := [Value.localValue
          { name := p2 ++ n, kind := LocalKind.stackAllocation }],
        isLifetimeEnd := lb.isLifetimeEnd, decorations := lb.decorations } := by
    rw [LifetimeBoundary.copyFor, hstack]
    rfl
  refine ⟨_, _, hcopy1, hcopy2, rfl, rfl, rfl, rfl, rfl, rfl, rfl, rfl, ?_⟩
  intro hne
  simp [LifetimeBoundary.getStackAllocation] at hne
  exact hp (string_append_right_cancel p1 p2 n hne)

/-- C8 witness: two structural copies of concrete nodes under the two
distinct renaming rules "copy0." and "copy1.". -/
theorem structuralCopy_preserves_and_renames_witness :
    (("copy0." : String) ≠ "copy1." ∧
     c8lb.getStackAllocation =
       Value.localValue { name := "%buf", kind := LocalKind.stackAllocation }) ∧
    (((c8sa.copyFor ⟨"m1"⟩ "copy0.").semaphore = c8sa.semaphore ∧
      (c8sa.copyFor ⟨"m1"⟩ "copy0.").increase = c8sa.increase ∧
      (c8sa.copyFor ⟨"m1"⟩ "copy0.").conditional = c8sa.conditional ∧
      (c8sa.copyFor ⟨"m1"⟩ "copy0.").setFlags = c8sa.setFlags ∧
      (c8sa.copyFor ⟨"m1"⟩ "copy0.").decorations = c8sa.decorations) ∧
     ((c8mb.copyFor ⟨"m1"⟩ "copy0.").scope = c8mb.scope ∧
      (c8mb.copyFor ⟨"m1"⟩ "copy0.").semantics = c8mb.semantics ∧
      (c8mb.copyFor ⟨"m1"⟩ "copy0.").decorations = c8mb.decorations) ∧
     (∃ lb1 lb2 : LifetimeBoundary,
       c8lb.copyFor ⟨"m1"⟩ "copy0." = .ok lb1 ∧
       c8lb.copyFor ⟨"m2"⟩ "copy1." = .ok lb2 ∧
       lb1.isLifetimeEnd = c8lb.isLifetimeEnd ∧
       lb2.isLifetimeEnd = c8lb.isLifetimeEnd ∧
       lb1.decorations = c8lb.decorations ∧
       lb2.decorations = c8lb.decorations ∧
       lb1.getStackAllocation =
         Value.localValue
           { name := "copy0." ++ "%buf", kind := LocalKind.stackAllocation } ∧
       lb2.getStackAllocation =
         Value.localValue
           { name := "copy1." ++ "%buf", kind := LocalKind.stackAllocation } ∧
       lb1.getStackAllocation.isStackAllocationLocal = true ∧
       lb2.getStackAllocation.isStackAllocationLocal = true ∧
       lb1.getStackAllocation ≠ lb2.getStackAllocation)) :=
  ⟨⟨by decide, rfl⟩,
   structuralCopy_preserves_and_renames c8sa c8mb c8lb ⟨"m1"⟩ ⟨"m2"⟩
     "copy0." "copy1." "%buf" (by decide) rfl⟩

/-- C9: SemaphoreAdjustment render is exactly "semaphore <id>
increase|decrease" followed by the node's annotation text, and the
worked example renders "semaphore 3 increase". -/
theorem semaphoreAdjustment_render (s : Semaphore) (d : Bool)
    (cond : ConditionCode) (sf : SetFlag) (decs : List String) :
    ({ semaphore := s, increase := d, conditional := cond, setFlags := sf,
       decorations := decs } : SemaphoreAdjustment).to_string =
      "semaphore " ++ toString s.val ++ " "
        ++ (if d then "increase" else "decrease")
        ++ createAdditionalInfoString decs ∧
    (mkSemaphoreAdjustment 3 true COND_ALWAYS SetFlag.DONT_SET).to_string =
      "semaphore 3 increase" := by
  constructor
  · simp [SemaphoreAdjustment.to_string, String.append_assoc]
  · rfl

/-- C10: lowering a SemaphoreAdjustment depends only on the node's
stored fields: any two invocations with any value-to-register mappings,
label-to-offset mappings and instruction indices produce field-identical
machine instructions, and lowering never fails. -/
theorem semaphoreAdjustment_lowering_mapping_independent
    (i : SemaphoreAdjustment) (rm rm2 : RegisterMapping)
    (lm lm2 : LabelMapping) (idx idx2 : Nat) :
    i.convertToAsm rm lm idx = i.convertToAsm rm2 lm2 idx2 ∧
    (∃ instr : Instruction, i.convertToAsm rm lm idx = .ok instr) :=
  ⟨rfl, ⟨_, rfl⟩⟩

end VC4C
